import Mathlib

/-!
Shallow embedding of the Live Share session / port-forwarding client of this
repository (package pkg/liveshare).  The package's implementation files are
not among the available sources; only its test file
(pkg/liveshare/session_test.go) is.  Following the status rules, the missing
implementation is modelled from the specification (spec.md §§3-7), and each
such definition carries a doc comment starting "Modelled from the spec:".
The test file's mock handlers, which are available source, are translated
verbatim where they serve as witnesses.
-/

set_option autoImplicit false

namespace LiveShare

/-- Modelled from the spec: `ConnectionOptions` (spec §3) of the missing
liveshare implementation — session identifier, session token, relay endpoint
address, relay access token, and the set of trusted host public keys.  The
transport-security configuration carries no behaviour at this level and is
omitted. -/
structure Options where
  sessionID : String
  sessionToken : String
  relayEndpoint : String
  relaySAS : String
  hostPublicKeys : List String
  deriving Repr, DecidableEq

/-- Modelled from the spec: the `Port` record (spec §3) of the missing
implementation — source port, protocol tag, opaque stream name and stream
condition, and the visibility flag. -/
structure Port where
  sourcePort : Int
  protocol : String
  streamName : String
  streamCondition : String
  isPublic : Bool
  deriving Repr, DecidableEq

/-- JSON-like wire values carried by RPC frames (spec §6: positional/array
parameters, object results). -/
inductive JValue where
  | num (n : Int)
  | str (s : String)
  | bool (b : Bool)
  | null
  | arr (elems : List JValue)
  | obj (fields : List (String × JValue))
  deriving Repr

/-- Modelled from the spec: the result of the `workspace.joinWorkspace`
call; the test file decodes it as `joinWorkspaceResult` holding one
session number. -/
structure JoinWorkspaceResult where
  sessionNumber : Int
  deriving Repr, DecidableEq

/-- Session lifecycle states (spec §4.3). -/
inductive SessionState where
  | ready
  | closed
  deriving Repr, DecidableEq

/-- Modelled from the spec: the `Session` value (spec §3) returned by
`Connect` — resolved workspace identifier, lifecycle state, and the Port
Registry. -/
structure Session where
  workspaceID : Int
  state : SessionState
  ports : List Port
  deriving Repr, DecidableEq

/-- Errors `Connect` can fail with (spec §7). -/
inductive ConnectError where
  | missingCredentials
  | dialFailed
  | authFailed
  | joinFailed (msg : String)
  | invalidHostKey
  deriving Repr, DecidableEq

/-- Modelled from the spec: the relay-side collaborator a `Connect` attempt
talks to — the connection-scoped access token it expects for the dial, the
session bearer credential it expects at the join handshake, the identity
keys the remote host presents, and the outcome of the join handler. -/
structure RelayServer where
  relaySAS : String
  sessionToken : String
  hostKeys : List String
  joinResult : Except String JoinWorkspaceResult

/-- Modelled from the spec: the Host Key Verifier (spec §4.2) of the missing
implementation.  At least one presented key must exactly string-match an
entry in the trusted set; an empty trusted set always fails. -/
def verify (presented trusted : List String) : Bool :=
  presented.any (fun k => trusted.contains k)

/-- Modelled from the spec: `Connect` (spec §4.3) of the missing
implementation.  Requires a session identifier and session token (spec §3
invariant), opens the transport with the connection-scoped relay token,
authenticates the session credential, performs the join handshake, then
runs the Host Key Verifier as the last step before a Ready session is
returned; a trust failure yields `InvalidHostKeyError` and no session. -/
def Connect (srv : RelayServer) (opts : Options) : Except ConnectError Session :=
  if opts.sessionID = "" ∨ opts.sessionToken = "" then
    .error .missingCredentials
  else if srv.relaySAS ≠ opts.relaySAS then
    .error .dialFailed
  else if srv.sessionToken ≠ opts.sessionToken then
    .error .authFailed
  else
    match srv.joinResult with
    | .error m => .error (.joinFailed m)
    | .ok r =>
      if verify srv.hostKeys opts.hostPublicKeys then
        .ok { workspaceID := r.sessionNumber, state := .ready, ports := [] }
      else
        .error .invalidHostKey

/-- Modelled from the spec: one outbound RPC request frame of the missing
implementation — a method name and positional arguments (spec §6). -/
structure RpcCall where
  method : String
  args : List JValue
  deriving Repr

/-- Modelled from the spec: errors a port-sharing operation can return
(spec §7): closed-session errors, RPC errors surfaced verbatim, and
response-decoding failures. -/
inductive OpError where
  | sessionClosed
  | rpc (msg : String)
  | decode
  deriving Repr, DecidableEq

/-- Modelled from the spec: the server side of the control-plane surface —
a mapping from one request frame to the remote outcome, an explicit error
or a result value (spec §6). -/
def SharingServer : Type := RpcCall → Except String JValue

/-- Modelled from the spec: the routing token returned by the start-sharing
call — the test file decodes it as a stream identifier with a name and a
condition. -/
structure StreamID where
  name : String
  condition : String
  deriving Repr, DecidableEq

/-- Modelled from the spec: the request frame built by `StartSharing` —
local port number, protocol tag, and the browse URL derived
deterministically from the port (spec §4.3). -/
def startSharingCall (protocol : String) (port : Int) : RpcCall :=
  { method := "serverSharing.startSharing",
    args := [.num port, .str protocol, .str ("http://localhost:" ++ toString port)] }

/-- Modelled from the spec: the request frame built by `GetSharedServers` —
no arguments (spec §6). -/
def getSharedServersCall : RpcCall :=
  { method := "serverSharing.getSharedServers", args := [] }

/-- Modelled from the spec: the request frame built by
`UpdateSharedVisibility` — the source port number and the desired boolean
visibility, in that order (spec §6). -/
def updateSharedVisibilityCall (port : Int) (pub : Bool) : RpcCall :=
  { method := "serverSharing.updateSharedServerVisibility",
    args := [.num port, .bool pub] }

/-- Decode an optional object field as a string; an absent field yields the
zero value, as the Go decoder does. -/
def decodeStr : Option JValue → Option String
  | some (.str s) => some s
  | none => some ""
  | _ => none

/-- Decode an optional object field as a number; an absent field yields the
zero value, as the Go decoder does. -/
def decodeNum : Option JValue → Option Int
  | some (.num n) => some n
  | none => some 0
  | _ => none

/-- Decode an optional object field as a boolean; an absent field yields
the zero value, as the Go decoder does. -/
def decodeBool : Option JValue → Option Bool
  | some (.bool b) => some b
  | none => some false
  | _ => none

/-- Modelled from the spec: decoding the start-sharing result object into
the routing token (stream name and stream condition). -/
def decodeStreamID (v : JValue) : Option StreamID :=
  match v with
  | .obj fs => do
    let n ← decodeStr (fs.lookup "streamName")
    let c ← decodeStr (fs.lookup "streamCondition")
    pure { name := n, condition := c }
  | _ => none

/-- Wire encoding of a `Port` record as the server sends it (spec §6:
source port, stream name, stream condition, visibility, protocol tag). -/
def Port.toJValue (p : Port) : JValue :=
  .obj [("sourcePort", .num p.sourcePort),
        ("protocol", .str p.protocol),
        ("streamName", .str p.streamName),
        ("streamCondition", .str p.streamCondition),
        ("isPublic", .bool p.isPublic)]

/-- Modelled from the spec: decoding one port-sharing record of the
`getSharedServers` result into a `Port` value. -/
def decodePort (v : JValue) : Option Port :=
  match v with
  | .obj fs => do
    let sp ← decodeNum (fs.lookup "sourcePort")
    let pr ← decodeStr (fs.lookup "protocol")
    let n ← decodeStr (fs.lookup "streamName")
    let c ← decodeStr (fs.lookup "streamCondition")
    let ip ← decodeBool (fs.lookup "isPublic")
    pure { sourcePort := sp, protocol := pr, streamName := n,
           streamCondition := c, isPublic := ip }
  | _ => none

/-- Decode each element of a result array as a `Port` record, failing if
any element fails to decode. -/
def decodePortList : List JValue → Option (List Port)
  | [] => some []
  | v :: rest => do
    let p ← decodePort v
    let ps ← decodePortList rest
    pure (p :: ps)

/-- Modelled from the spec: decoding the `getSharedServers` result array
into a list of `Port` values. -/
def decodePorts (v : JValue) : Option (List Port) :=
  match v with
  | .arr xs => decodePortList xs
  | _ => none

/-- Modelled from the spec: `startSharing` (spec §4.3) of the missing
implementation.  Valid only in Ready; issues one control-plane call
carrying the port, the protocol tag and the derived browse URL; on success
records a new Port in the Registry and returns the routing token.  The
result triple is the updated session, the list of issued request frames,
and the operation outcome. -/
def Session.startSharing (s : Session) (srv : SharingServer)
    (protocol : String) (port : Int) :
    Session × List RpcCall × Except OpError StreamID :=
  if s.state ≠ .ready then (s, [], .error .sessionClosed)
  else
    let call := startSharingCall protocol port
    match srv call with
    | .error m => (s, [call], .error (.rpc m))
    | .ok v =>
      match decodeStreamID v with
      | none => (s, [call], .error .decode)
      | some sid =>
        ({ s with ports := s.ports ++
            [{ sourcePort := port, protocol := protocol, streamName := sid.name,
               streamCondition := sid.condition, isPublic := false }] },
         [call], .ok sid)

/-- Modelled from the spec: `GetSharedServers` (spec §4.3) of the missing
implementation.  Valid only in Ready; issues one control-plane call with no
arguments, decodes the returned list into Port values, replaces the
Registry, and returns the list; an empty list is tolerated without
error. -/
def Session.GetSharedServers (s : Session) (srv : SharingServer) :
    Session × List RpcCall × Except OpError (List Port) :=
  if s.state ≠ .ready then (s, [], .error .sessionClosed)
  else
    match srv getSharedServersCall with
    | .error m => (s, [getSharedServersCall], .error (.rpc m))
    | .ok v =>
      match decodePorts v with
      | none => (s, [getSharedServersCall], .error .decode)
      | some ps => ({ s with ports := ps }, [getSharedServersCall], .ok ps)

/-- Modelled from the spec: `UpdateSharedVisibility` (spec §4.3) of the
missing implementation.  Valid only in Ready; issues one control-plane call
with the source port number and the desired visibility; on success updates
the matching Registry entry's visibility flag (a local miss leaves the
Registry unchanged and is not an error). -/
def Session.UpdateSharedVisibility (s : Session) (srv : SharingServer)
    (port : Int) (pub : Bool) :
    Session × List RpcCall × Except OpError Unit :=
  if s.state ≠ .ready then (s, [], .error .sessionClosed)
  else
    let call := updateSharedVisibilityCall port pub
    match srv call with
    | .error m => (s, [call], .error (.rpc m))
    | .ok _ =>
      ({ s with ports := s.ports.map fun p =>
          if p.sourcePort = port then { p with isPublic := pub } else p },
       [call], .ok ())

/-- The start-sharing handler of TestServerStartSharing, translated from
pkg/liveshare/session_test.go: it rejects fewer than three arguments, a
port other than 2222, a protocol other than sshd, or an unexpected browse
URL, and otherwise answers with the stream-name/stream-condition object. -/
def mockStartSharingHandler : SharingServer := fun c =>
  if c.method ≠ "serverSharing.startSharing" then .error "unknown method"
  else
    match c.args with
    | .num port :: .str protocol :: .str browseURL :: _ =>
      if port ≠ 2222 then .error "port does not match serverPort"
      else if protocol ≠ "sshd" then .error "protocol does not match serverProtocol"
      else if browseURL ≠ "http://localhost:2222" then .error "browseURL does not match expected"
      else .ok (.obj [("streamName", .str "stream-name"),
                      ("streamCondition", .str "stream-condition")])
    | _ => .error "not enough arguments to start sharing"

/-- The visibility handler of TestServerUpdateSharedVisibility, translated
from pkg/liveshare/session_test.go: it rejects fewer than two arguments, a
port other than 80 or a visibility other than true, and otherwise
acknowledges with no result and no error. -/
def mockUpdateVisibilityHandler : SharingServer := fun c =>
  if c.method ≠ "serverSharing.updateSharedServerVisibility" then .error "unknown method"
  else
    match c.args with
    | .num port :: .bool pub :: _ =>
      if port ≠ 80 then .error "port param is not expected value"
      else if pub ≠ true then .error "pulic param is not expected value"
      else .ok .null
    | _ => .error "request arguments is less than 2"

/-- The shared-servers handler of TestServerGetSharedServers, translated
from pkg/liveshare/session_test.go: it answers every request with the one
fixed record of that test. -/
def mockGetSharedServersHandler : SharingServer := fun _ =>
  .ok (.arr [Port.toJValue
    { sourcePort := 2222, protocol := "", streamName := "stream-name",
      streamCondition := "stream-condition", isPublic := false }])

/-- Request identifiers allocated by the dispatcher (spec §4.1). -/
abbrev ReqID := Nat

/-- Modelled from the spec: the resolution of one pending call (spec §4.1)
— a matched response result, an RPC error surfaced verbatim, or the
transport-closed error delivered when the stream closes. -/
inductive Outcome where
  | result (v : JValue)
  | rpcError (msg : String)
  | transportClosed
  deriving Repr

/-- Whether an outcome is the transport-closed error. -/
def Outcome.isTransportClosed : Outcome → Bool
  | .transportClosed => true
  | _ => false

/-- Whether an outcome is a success result. -/
def Outcome.isResult : Outcome → Bool
  | .result _ => true
  | _ => false

/-- One inbound response frame: the id of the request it answers and the
carried result value (spec §6). -/
structure Frame where
  id : ReqID
  value : JValue
  deriving Repr

/-- Modelled from the spec: the RPC Framer/Dispatcher state (spec §4.1) of
the missing implementation — the next request id to allocate and the table
of pending request ids. -/
structure Dispatcher where
  nextID : ReqID
  pending : List ReqID
  deriving Repr, DecidableEq

/-- Modelled from the spec: issuing a call (spec §4.1) — allocate a unique
request id and register a pending call under it. -/
def Dispatcher.issueCall (d : Dispatcher) : Dispatcher × ReqID :=
  ({ nextID := d.nextID + 1, pending := d.pending ++ [d.nextID] }, d.nextID)

/-- Modelled from the spec: the read task handling one response frame
(spec §4.1) — a frame whose id matches a still-pending request resolves
exactly that request with the carried result; an unmatched id is dropped,
never treated as fatal. -/
def Dispatcher.onResponse (d : Dispatcher) (f : Frame) : Dispatcher × List (ReqID × Outcome) :=
  if f.id ∈ d.pending then
    ({ nextID := d.nextID, pending := d.pending.filter (fun x => x ≠ f.id) },
     [(f.id, Outcome.result f.value)])
  else
    (d, [])

/-- Modelled from the spec: stream closure detected by the read task
(spec §5) — every currently pending call is resolved with the
transport-closed error and the pending table is emptied. -/
def Dispatcher.onStreamClose (d : Dispatcher) : Dispatcher × List (ReqID × Outcome) :=
  ({ nextID := d.nextID, pending := [] },
   d.pending.map (fun id => (id, Outcome.transportClosed)))

/-- Modelled from the spec: the read task draining a sequence of inbound
response frames in arrival order (spec §4.1), accumulating the resolutions
it delivers. -/
def Dispatcher.processFrames (d : Dispatcher) : List Frame → Dispatcher × List (ReqID × Outcome)
  | [] => (d, [])
  | f :: rest =>
    let r1 := d.onResponse f
    let r2 := r1.1.processFrames rest
    (r2.1, r1.2 ++ r2.2)

theorem verify_empty_trusted (presented : List String) : verify presented [] = false := by
  simp [verify]

theorem verify_iff (presented trusted : List String) :
    verify presented trusted = true ↔ ∃ k, k ∈ presented ∧ k ∈ trusted := by
  simp [verify, List.any_eq_true, List.contains_iff_exists_mem_beq, beq_iff_eq]

/-- C1: for every connection-options value whose trusted-host-key set is
empty, `Connect` fails with the invalid-host-key error and returns no
session, even when credentials are present, the relay dial succeeds and the
`workspace.joinWorkspace` handshake completes successfully. -/
theorem connect_empty_trusted_fails (srv : RelayServer) (opts : Options)
    (r : JoinWorkspaceResult)
    (hid : opts.sessionID ≠ "") (htok : opts.sessionToken ≠ "")
    (hdial : srv.relaySAS = opts.relaySAS)
    (hauth : srv.sessionToken = opts.sessionToken)
    (hjoin : srv.joinResult = .ok r)
    (hempty : opts.hostPublicKeys = []) :
    Connect srv opts = .error .invalidHostKey := by
  simp [Connect, hid, htok, hdial, hauth, hjoin, hempty, verify_empty_trusted]

/-- C1 witness: the scenario of TestInvalidHostKey — a server whose
password matches the session token and whose join handler succeeds, against
options with an empty trusted-key set. -/
theorem connect_empty_trusted_fails_witness :
    ("session-id" : String) ≠ "" ∧ ("session-token" : String) ≠ "" ∧
    (RelayServer.mk "relay-sas" "session-token" ["ssh-public-key"] (.ok ⟨1⟩)).relaySAS
      = (Options.mk "session-id" "session-token" "sb://relay" "relay-sas" []).relaySAS ∧
    Connect (RelayServer.mk "relay-sas" "session-token" ["ssh-public-key"] (.ok ⟨1⟩))
        (Options.mk "session-id" "session-token" "sb://relay" "relay-sas" [])
      = .error .invalidHostKey :=
  ⟨by decide, by decide, rfl,
   connect_empty_trusted_fails
     (RelayServer.mk "relay-sas" "session-token" ["ssh-public-key"] (.ok ⟨1⟩))
     (Options.mk "session-id" "session-token" "sb://relay" "relay-sas" [])
     ⟨1⟩ (by decide) (by decide) rfl rfl rfl rfl⟩

/-- C2: for every valid connection-options value whose trusted-host-key set
contains a key the server presents, `Connect` returns a session in the
Ready state with no error; and verification succeeds exactly when some
presented key exactly string-matches an entry of the trusted set. -/
theorem connect_trusted_key_ready (srv : RelayServer) (opts : Options)
    (r : JoinWorkspaceResult)
    (hid : opts.sessionID ≠ "") (htok : opts.sessionToken ≠ "")
    (hdial : srv.relaySAS = opts.relaySAS)
    (hauth : srv.sessionToken = opts.sessionToken)
    (hjoin : srv.joinResult = .ok r)
    (hkey : ∃ k, k ∈ srv.hostKeys ∧ k ∈ opts.hostPublicKeys) :
    (∃ s, Connect srv opts = .ok s ∧ s.state = .ready) ∧
      (verify srv.hostKeys opts.hostPublicKeys = true ↔
        ∃ k, k ∈ srv.hostKeys ∧ k ∈ opts.hostPublicKeys) := by
  refine ⟨⟨{ workspaceID := r.sessionNumber, state := .ready, ports := [] }, ?_, rfl⟩,
    verify_iff _ _⟩
  have hv : verify srv.hostKeys opts.hostPublicKeys = true := (verify_iff _ _).mpr hkey
  simp [Connect, hid, htok, hdial, hauth, hjoin, hv]

/-- C2 witness: the scenario of makeMockSession — the server presents the
test public key and the options trust exactly that key; `Connect` yields a
Ready session. -/
theorem connect_trusted_key_ready_witness :
    ("session-id" : String) ≠ "" ∧ ("session-token" : String) ≠ "" ∧
    (∃ k, k ∈ (RelayServer.mk "relay-sas" "session-token" ["ssh-public-key"] (.ok ⟨1⟩)).hostKeys ∧
      k ∈ (Options.mk "session-id" "session-token" "sb://relay" "relay-sas" ["ssh-public-key"]).hostPublicKeys) ∧
    ((∃ s, Connect (RelayServer.mk "relay-sas" "session-token" ["ssh-public-key"] (.ok ⟨1⟩))
        (Options.mk "session-id" "session-token" "sb://relay" "relay-sas" ["ssh-public-key"]) = .ok s ∧
        s.state = .ready) ∧
      (verify ["ssh-public-key"] ["ssh-public-key"] = true ↔
        ∃ k, k ∈ (["ssh-public-key"] : List String) ∧ k ∈ (["ssh-public-key"] : List String))) :=
  ⟨by decide, by decide, ⟨"ssh-public-key", by decide, by decide⟩,
   connect_trusted_key_ready
     (RelayServer.mk "relay-sas" "session-token" ["ssh-public-key"] (.ok ⟨1⟩))
     (Options.mk "session-id" "session-token" "sb://relay" "relay-sas" ["ssh-public-key"])
     ⟨1⟩ (by decide) (by decide) rfl rfl rfl ⟨"ssh-public-key", by decide, by decide⟩⟩


theorem decodePort_toJValue (p : Port) : decodePort (Port.toJValue p) = some p := rfl

theorem decodePorts_roundtrip (ps : List Port) :
    decodePorts (.arr (ps.map Port.toJValue)) = some ps := by
  simp only [decodePorts]
  induction ps with
  | nil => rfl
  | cons p rest ih => simp [List.map_cons, decodePortList, decodePort_toJValue, ih]

/-- C3: startSharing with protocol sshd and port 2222 on a Ready session
issues exactly one serverSharing.startSharing call whose positional
arguments are 2222, "sshd", "http://localhost:2222" in that order, and when
the server answers with a stream-name/stream-condition object the
operation returns exactly those two strings. -/
theorem startSharing_args_exact (s : Session) (srv : SharingServer) (sn sc : String)
    (hready : s.state = .ready)
    (hsrv : srv (startSharingCall "sshd" 2222) =
        .ok (.obj [("streamName", .str sn), ("streamCondition", .str sc)])) :
    (s.startSharing srv "sshd" 2222).2.1 =
      [RpcCall.mk "serverSharing.startSharing"
        [.num 2222, .str "sshd", .str "http://localhost:2222"]] ∧
    (s.startSharing srv "sshd" 2222).2.2 = .ok (StreamID.mk sn sc) := by
  have hdec : decodeStreamID
      (.obj [("streamName", .str sn), ("streamCondition", .str sc)]) =
      some (StreamID.mk sn sc) := rfl
  have hcall : startSharingCall "sshd" 2222 =
      RpcCall.mk "serverSharing.startSharing"
        [.num 2222, .str "sshd", .str "http://localhost:2222"] := rfl
  rw [hcall] at hsrv
  constructor <;>
    simp [Session.startSharing, hready, hsrv, hdec, hcall]

/-- C3 witness: the translated TestServerStartSharing handler accepts the
built frame and the operation returns the stream-name/stream-condition
pair of that test. -/
theorem startSharing_args_exact_witness :
    (Session.mk 1 .ready []).state = .ready ∧
    mockStartSharingHandler (startSharingCall "sshd" 2222) =
      .ok (.obj [("streamName", .str "stream-name"),
                 ("streamCondition", .str "stream-condition")]) ∧
    (((Session.mk 1 .ready []).startSharing mockStartSharingHandler "sshd" 2222).2.1 =
      [RpcCall.mk "serverSharing.startSharing"
        [.num 2222, .str "sshd", .str "http://localhost:2222"]] ∧
    ((Session.mk 1 .ready []).startSharing mockStartSharingHandler "sshd" 2222).2.2 =
      .ok (StreamID.mk "stream-name" "stream-condition")) :=
  ⟨rfl, rfl,
   startSharing_args_exact (Session.mk 1 .ready []) mockStartSharingHandler
     "stream-name" "stream-condition" rfl rfl⟩

/-- C4: UpdateSharedVisibility with port 80 and visibility true on a Ready
session issues exactly one serverSharing.updateSharedServerVisibility call
carrying the two positional arguments 80 and true in that order, and
returns success whenever the server acknowledges without an error. -/
theorem updateSharedVisibility_args_exact (s : Session) (srv : SharingServer) (v : JValue)
    (hready : s.state = .ready)
    (hsrv : srv (updateSharedVisibilityCall 80 true) = .ok v) :
    (s.UpdateSharedVisibility srv 80 true).2.1 =
      [RpcCall.mk "serverSharing.updateSharedServerVisibility" [.num 80, .bool true]] ∧
    (s.UpdateSharedVisibility srv 80 true).2.2 = .ok () := by
  have hcall : updateSharedVisibilityCall 80 true =
      RpcCall.mk "serverSharing.updateSharedServerVisibility"
        [.num 80, .bool true] := rfl
  rw [hcall] at hsrv
  constructor <;>
    simp [Session.UpdateSharedVisibility, hready, hsrv, hcall]

/-- C4 witness: the translated TestServerUpdateSharedVisibility handler
acknowledges the built frame with no error. -/
theorem updateSharedVisibility_args_exact_witness :
    (Session.mk 1 .ready []).state = .ready ∧
    mockUpdateVisibilityHandler (updateSharedVisibilityCall 80 true) = .ok .null ∧
    (((Session.mk 1 .ready []).UpdateSharedVisibility mockUpdateVisibilityHandler 80 true).2.1 =
      [RpcCall.mk "serverSharing.updateSharedServerVisibility" [.num 80, .bool true]] ∧
    ((Session.mk 1 .ready []).UpdateSharedVisibility mockUpdateVisibilityHandler 80 true).2.2 =
      .ok ()) :=
  ⟨rfl, rfl,
   updateSharedVisibility_args_exact (Session.mk 1 .ready [])
     mockUpdateVisibilityHandler .null rfl rfl⟩

/-- C5: for every list of port-sharing records the server answers with,
GetSharedServers on a Ready session returns that list without error, every
record's source port, stream name and stream condition unchanged; an empty
server list yields an empty result and no error. -/
theorem getSharedServers_roundtrip (s : Session) (srv : SharingServer) (ps : List Port)
    (hready : s.state = .ready)
    (hsrv : srv getSharedServersCall = .ok (.arr (ps.map Port.toJValue))) :
    (s.GetSharedServers srv).2.2 = .ok ps := by
  simp [Session.GetSharedServers, hready, hsrv, decodePorts_roundtrip]

/-- C5 witness: a server answering with the empty record list yields the
empty result and no error, and the translated TestServerGetSharedServers
handler round-trips the one record of that test. -/
theorem getSharedServers_roundtrip_witness :
    (Session.mk 1 .ready []).state = .ready ∧
    mockGetSharedServersHandler getSharedServersCall =
      .ok (.arr ([Port.mk 2222 "" "stream-name" "stream-condition" false].map Port.toJValue)) ∧
    ((Session.mk 1 .ready []).GetSharedServers mockGetSharedServersHandler).2.2 =
      .ok [Port.mk 2222 "" "stream-name" "stream-condition" false] :=
  ⟨rfl, rfl,
   getSharedServers_roundtrip (Session.mk 1 .ready []) mockGetSharedServersHandler
     [Port.mk 2222 "" "stream-name" "stream-condition" false] rfl rfl⟩

/-- C8: issuing GetSharedServers twice in succession on the same Ready
session against an unchanged server returns identical outcomes, in
particular identical lists of Ports. -/
theorem getSharedServers_idempotent (s : Session) (srv : SharingServer)
    (hready : s.state = .ready) :
    (((s.GetSharedServers srv).1.GetSharedServers srv)).2.2 =
      (s.GetSharedServers srv).2.2 := by
  cases hsrv : srv getSharedServersCall with
  | error m => simp [Session.GetSharedServers, hready, hsrv]
  | ok v =>
    cases hdec : decodePorts v with
    | none => simp [Session.GetSharedServers, hready, hsrv, hdec]
    | some ps => simp [Session.GetSharedServers, hready, hsrv, hdec]

/-- C8 witness: two successive GetSharedServers against the translated
TestServerGetSharedServers handler agree. -/
theorem getSharedServers_idempotent_witness :
    (Session.mk 1 .ready []).state = .ready ∧
    ((((Session.mk 1 .ready []).GetSharedServers mockGetSharedServersHandler).1.GetSharedServers
        mockGetSharedServersHandler)).2.2 =
      ((Session.mk 1 .ready []).GetSharedServers mockGetSharedServersHandler).2.2 :=
  ⟨rfl,
   getSharedServers_idempotent (Session.mk 1 .ready []) mockGetSharedServersHandler rfl⟩

/-- C9 counterexample: a server whose start-sharing result carries empty
stream-name and stream-condition strings makes the operation succeed with
both fields empty, so a successful start-sharing does not guarantee
non-empty stream name and condition. -/
theorem startSharing_blank_stream_counterexample :
    ((Session.mk 1 .ready []).startSharing
        (fun _ => .ok (.obj [("streamName", .str ""), ("streamCondition", .str "")]))
        "sshd" 2222).2.2 = .ok (StreamID.mk "" "") := rfl

/-- C9 amended: the start-sharing operation passes the server's stream
name and stream condition through unchanged, so whenever the server's two
strings are non-empty a successful operation returns non-empty stream name
and stream condition. -/
theorem startSharing_stream_passthrough (s : Session) (srv : SharingServer)
    (protocol : String) (port : Int) (sn sc : String)
    (hready : s.state = .ready)
    (hsrv : srv (startSharingCall protocol port) =
        .ok (.obj [("streamName", .str sn), ("streamCondition", .str sc)]))
    (hn : sn ≠ "") (hc : sc ≠ "") :
    ∃ sid, (s.startSharing srv protocol port).2.2 = .ok sid ∧
      sid.name = sn ∧ sid.condition = sc ∧ sid.name ≠ "" ∧ sid.condition ≠ "" := by
  refine ⟨StreamID.mk sn sc, ?_, rfl, rfl, hn, hc⟩
  have hdec : decodeStreamID
      (.obj [("streamName", .str sn), ("streamCondition", .str sc)]) =
      some (StreamID.mk sn sc) := rfl
  simp [Session.startSharing, hready, hsrv, hdec]

/-- C9 amended witness: against the translated TestServerStartSharing
handler the returned stream name and condition are the non-empty strings
of that test. -/
theorem startSharing_stream_passthrough_witness :
    (Session.mk 1 .ready []).state = .ready ∧
    mockStartSharingHandler (startSharingCall "sshd" 2222) =
      .ok (.obj [("streamName", .str "stream-name"),
                 ("streamCondition", .str "stream-condition")]) ∧
    ("stream-name" : String) ≠ "" ∧ ("stream-condition" : String) ≠ "" ∧
    (∃ sid, ((Session.mk 1 .ready []).startSharing mockStartSharingHandler "sshd" 2222).2.2 =
        .ok sid ∧ sid.name = "stream-name" ∧ sid.condition = "stream-condition" ∧
        sid.name ≠ "" ∧ sid.condition ≠ "") :=
  ⟨rfl, rfl, by decide, by decide,
   startSharing_stream_passthrough (Session.mk 1 .ready []) mockStartSharingHandler
     "sshd" 2222 "stream-name" "stream-condition" rfl rfl (by decide) (by decide)⟩

/-- C6: when the transport stream closes while calls are pending, every
pending call is resolved with the transport-closed error exactly once, no
pending call is resolved with a success result, none is left unresolved,
and the number of resolutions equals the number of pending calls. -/
theorem streamClose_resolves_all_pending (d : Dispatcher) (hnd : d.pending.Nodup) :
    (∀ id ∈ d.pending,
        d.onStreamClose.2.countP (fun r => r.1 == id && r.2.isTransportClosed) = 1) ∧
    (∀ r ∈ d.onStreamClose.2, r.2.isResult = false) ∧
    d.onStreamClose.1.pending = [] ∧
    d.onStreamClose.2.length = d.pending.length := by
  refine ⟨?_, ?_, rfl, by simp [Dispatcher.onStreamClose]⟩
  · intro id hid
    simp only [Dispatcher.onStreamClose, List.countP_map]
    have hfun : ((fun r : ReqID × Outcome => r.1 == id && r.2.isTransportClosed) ∘
        (fun x : ReqID => (x, Outcome.transportClosed))) = (fun x : ReqID => x == id) := by
      funext x
      simp [Outcome.isTransportClosed, Function.comp]
    rw [hfun]
    exact List.count_eq_one_of_mem hnd hid
  · intro r hr
    simp only [Dispatcher.onStreamClose, List.mem_map] at hr
    obtain ⟨id, _, rfl⟩ := hr
    rfl

/-- C6 witness: a dispatcher with three pending calls resolves all three
with the transport-closed error on stream closure. -/
theorem streamClose_resolves_all_pending_witness :
    ((Dispatcher.mk 10 [7, 8, 9]).pending.Nodup) ∧
    ((∀ id ∈ (Dispatcher.mk 10 [7, 8, 9]).pending,
        (Dispatcher.mk 10 [7, 8, 9]).onStreamClose.2.countP
          (fun r => r.1 == id && r.2.isTransportClosed) = 1) ∧
    (∀ r ∈ (Dispatcher.mk 10 [7, 8, 9]).onStreamClose.2, r.2.isResult = false) ∧
    (Dispatcher.mk 10 [7, 8, 9]).onStreamClose.1.pending = [] ∧
    (Dispatcher.mk 10 [7, 8, 9]).onStreamClose.2.length =
      (Dispatcher.mk 10 [7, 8, 9]).pending.length) :=
  ⟨by decide, streamClose_resolves_all_pending (Dispatcher.mk 10 [7, 8, 9]) (by decide)⟩

theorem processFrames_resolutions (fs : List Frame) (d : Dispatcher)
    (hsub : ∀ f ∈ fs, f.id ∈ d.pending)
    (hnd : (fs.map Frame.id).Nodup) :
    (d.processFrames fs).2 = fs.map (fun f => (f.id, Outcome.result f.value)) := by
  induction fs generalizing d with
  | nil => rfl
  | cons f rest ih =>
    have hf : f.id ∈ d.pending := hsub f (by simp)
    simp only [List.map_cons, List.nodup_cons, List.mem_map] at hnd
    obtain ⟨hfnotin, hndrest⟩ := hnd
    have hsub' : ∀ g ∈ rest, g.id ∈ d.pending.filter (fun x => x ≠ f.id) := by
      intro g hg
      refine List.mem_filter.mpr ⟨hsub g (List.mem_cons_of_mem f hg), ?_⟩
      have : g.id ≠ f.id := by
        intro heq
        exact hfnotin ⟨g, hg, heq⟩
      simp [this]
    simp only [Dispatcher.processFrames, Dispatcher.onResponse, if_pos hf, List.map_cons]
    rw [ih _ hsub' hndrest]
    rfl

/-- C7: for concurrently issued calls with distinct request ids, even when
the server delivers the response frames in reverse order of issue, each
call is resolved with exactly the result carried by the frame bearing its
own id, and the resolution list mentions each id exactly once — the
correlation is by id, never by issue order. -/
theorem concurrent_calls_correlate_by_id (n : Nat) (ids : List ReqID) (vals : List JValue)
    (hnd : ids.Nodup) (hlen : ids.length = vals.length) :
    ∀ i v, (i, v) ∈ ids.zip vals →
      ((i, Outcome.result v) ∈
          ((Dispatcher.mk n ids).processFrames
            (((ids.zip vals).reverse).map (fun p => Frame.mk p.1 p.2))).2 ∧
        (((Dispatcher.mk n ids).processFrames
            (((ids.zip vals).reverse).map (fun p => Frame.mk p.1 p.2))).2.countP
          (fun r => r.1 == i)) = 1) := by
  intro i v hiv
  have hfst : (ids.zip vals).map Prod.fst = ids :=
    List.map_fst_zip ids vals (le_of_eq hlen)
  have hids : ((((ids.zip vals).reverse).map (fun p => Frame.mk p.1 p.2)).map Frame.id)
      = ids.reverse := by
    simp only [List.map_map, List.map_reverse]
    have : (Frame.id ∘ fun p : ReqID × JValue => Frame.mk p.1 p.2) = Prod.fst := by
      funext p
      rfl
    rw [this, hfst]
  have hsub : ∀ f ∈ (((ids.zip vals).reverse).map (fun p => Frame.mk p.1 p.2)),
      f.id ∈ (Dispatcher.mk n ids).pending := by
    intro f hf
    simp only [List.mem_map, List.mem_reverse] at hf
    obtain ⟨p, hp, rfl⟩ := hf
    exact (List.of_mem_zip hp).1
  have hndf : ((((ids.zip vals).reverse).map (fun p => Frame.mk p.1 p.2)).map Frame.id).Nodup := by
    rw [hids]
    exact List.nodup_reverse.mpr hnd
  have hres := processFrames_resolutions _ _ hsub hndf
  constructor
  · rw [hres]
    simp only [List.map_map, List.mem_map, List.mem_reverse]
    exact ⟨(i, v), hiv, rfl⟩
  · rw [hres]
    simp only [List.map_map, List.countP_map]
    have hcomp : ((fun r : ReqID × Outcome => r.1 == i) ∘
        ((fun f : Frame => (f.id, Outcome.result f.value)) ∘
          (fun p : ReqID × JValue => Frame.mk p.1 p.2))) =
        ((fun x : ReqID => x == i) ∘ Prod.fst) := by
      funext p
      rfl
    rw [hcomp, ← List.countP_map, List.map_reverse, hfst]
    rw [show ∀ l : List ReqID, l.reverse.countP (fun x => x == i) = l.reverse.count i
        from fun l => rfl]
    rw [List.count_reverse]
    exact List.count_eq_one_of_mem hnd (List.of_mem_zip hiv).1

/-- C7 witness: three calls with ids 0, 1, 2 answered in reverse order
each resolve to their own value. -/
theorem concurrent_calls_correlate_by_id_witness :
    ([0, 1, 2] : List ReqID).Nodup ∧
    ([0, 1, 2] : List ReqID).length = [JValue.str "a", JValue.str "b", JValue.str "c"].length ∧
    ((0 : ReqID), JValue.str "a") ∈
      ([0, 1, 2] : List ReqID).zip [JValue.str "a", JValue.str "b", JValue.str "c"] ∧
    (((0 : ReqID), Outcome.result (JValue.str "a")) ∈
        ((Dispatcher.mk 3 [0, 1, 2]).processFrames
          (((([0, 1, 2] : List ReqID).zip
              [JValue.str "a", JValue.str "b", JValue.str "c"]).reverse).map
            (fun p => Frame.mk p.1 p.2))).2 ∧
      (((Dispatcher.mk 3 [0, 1, 2]).processFrames
          (((([0, 1, 2] : List ReqID).zip
              [JValue.str "a", JValue.str "b", JValue.str "c"]).reverse).map
            (fun p => Frame.mk p.1 p.2))).2.countP (fun r => r.1 == 0)) = 1) :=
  ⟨by decide, by decide, by simp,
   concurrent_calls_correlate_by_id 3 [0, 1, 2]
     [JValue.str "a", JValue.str "b", JValue.str "c"] (by decide) (by decide)
     0 (JValue.str "a") (by simp)⟩

/-- C10 counterexample: a server whose expected session credential equals
the options' session token can still make `Connect` fail — with an empty
trusted-key set the attempt ends in the invalid-host-key error — so
"Connect succeeds exactly when the server's expected password equals
Options.SessionToken" is false at this input. -/
theorem connect_token_match_not_sufficient :
    (RelayServer.mk "sas" "tok" ["host-key"] (.ok ⟨2⟩)).sessionToken
      = (Options.mk "sid" "tok" "sb://relay" "sas" []).sessionToken ∧
    Connect (RelayServer.mk "sas" "tok" ["host-key"] (.ok ⟨2⟩))
        (Options.mk "sid" "tok" "sb://relay" "sas" [])
      = .error .invalidHostKey :=
  ⟨rfl, rfl⟩

/-- C10 amended: matching the server's expected session credential is
necessary for `Connect` to succeed — whenever `Connect` returns a session,
the server's expected session token equals the options' session token —
but it is not sufficient, and in the spec's model the credential is
exchanged during the join handshake rather than at the transport dial. -/
theorem connect_ok_requires_token (srv : RelayServer) (opts : Options) (s : Session)
    (h : Connect srv opts = .ok s) : srv.sessionToken = opts.sessionToken := by
  by_cases h1 : opts.sessionID = "" ∨ opts.sessionToken = ""
  · simp [Connect, h1] at h
  · by_cases h2 : srv.relaySAS = opts.relaySAS
    · by_cases h3 : srv.sessionToken = opts.sessionToken
      · exact h3
      · simp [Connect, h1, h2, h3] at h
    · simp [Connect, h1, h2] at h

/-- C10 amended witness: a concrete successful connection, from which the
theorem yields the credential equality. -/
theorem connect_ok_requires_token_witness :
    Connect (RelayServer.mk "sas2" "tok2" ["host-key-2"] (.ok ⟨3⟩))
        (Options.mk "sid2" "tok2" "sb://relay2" "sas2" ["host-key-2"])
      = .ok (Session.mk 3 .ready []) ∧
    (RelayServer.mk "sas2" "tok2" ["host-key-2"] (.ok ⟨3⟩)).sessionToken
      = (Options.mk "sid2" "tok2" "sb://relay2" "sas2" ["host-key-2"]).sessionToken :=
  ⟨rfl,
   connect_ok_requires_token
     (RelayServer.mk "sas2" "tok2" ["host-key-2"] (.ok ⟨3⟩))
     (Options.mk "sid2" "tok2" "sb://relay2" "sas2" ["host-key-2"])
     (Session.mk 3 .ready []) rfl⟩

end LiveShare
